import Mathlib

/-!
Verification of the FreeLy 2.0 job / version-history subsystem.

The repository is a React frontend (frontend/src) talking to a FastAPI
backend over /api.  The backend source (backend/main.py) is not part of
the snapshot, so the server-side components (Version History Engine, Job
Lifecycle Manager, Cross-Generation Linker) are modelled from the spec;
everything about the frontend (undo/redo gating, polling effect, file
validation, form validation, apiRequest, risk meter) is embedded directly
from the JavaScript source.
-/

namespace Freely

/-! ## Version History Engine (spec section 4.2; backend not in snapshot) -/

/-- Errors raised by the Version History Engine (spec section 7 taxonomy). -/
inductive VersionError where
  | OutOfRangeError
  | NotFoundError
deriving Repr, DecidableEq

/-- Modelled from the spec: backend/main.py is absent from the snapshot, so
the Version History Engine state is taken from spec sections 3 and 4.2: a
proposal job carries the live results content, the ordered append-only list
of version snapshots, and the current pointer into that list. -/
structure ProposalVersionState where
  liveContent : String
  entries : List String
  current : Nat
deriving Repr, DecidableEq

/-- Modelled from the spec: the state of a proposal whose history is still
empty (before the first snapshot is appended). -/
def emptyVersionState : ProposalVersionState :=
  { liveContent := "", entries := [], current := 0 }

/-- Modelled from the spec (section 4.2, restore): validates
0 <= index < length, failing with OutOfRangeError otherwise; sets the live
results content to the entry at the index and moves the current pointer
there, leaving the stored sequence untouched. -/
def restore (s : ProposalVersionState) (index : Int) :
    Except VersionError ProposalVersionState :=
  if 0 ≤ index ∧ index < (s.entries.length : Int) then
    .ok { liveContent := s.entries.getD index.toNat "",
          entries := s.entries,
          current := index.toNat }
  else
    .error .OutOfRangeError

/-- Modelled from the spec (section 4.2, append): adds a new version at the
tail, truncating any entries past the current pointer first, and advances
the current pointer to the new tail. -/
def append (s : ProposalVersionState) (content : String) :
    ProposalVersionState :=
  let kept := s.entries.take (s.current + 1)
  { liveContent := content,
    entries := kept ++ [content],
    current := kept.length }

/-- Modelled from the spec (section 4.2, history): reports the full ordered
sequence together with the current pointer position. -/
def history (s : ProposalVersionState) : List String × Nat :=
  (s.entries, s.current)

end Freely

namespace Freely

/-! ## Job Lifecycle Manager (spec sections 3 and 4.1; backend not in
snapshot) -/

/-- Job kinds (spec section 3, kind enum). -/
inductive JobKind where
  | risk_analysis
  | proposal
deriving Repr, DecidableEq

/-- Job statuses (spec section 3, status enum). -/
inductive JobStatus where
  | pending
  | processing
  | completed
  | failed
deriving Repr, DecidableEq

/-- Modelled from the spec: backend/main.py is absent from the snapshot, so
the Job record is taken from spec section 3: id, kind, client name, the
immutable input snapshot (the extracted chat text, possibly empty), status,
and the optional structured results payload. -/
structure Job where
  id : Nat
  kind : JobKind
  client_name : String
  input_data : String
  status : JobStatus
  results : Option String
deriving Repr, DecidableEq

/-- Modelled from the spec (section 4.1, create): a freshly created job is
pending and has no results. -/
def createJob (id : Nat) (kind : JobKind) (client_name input_data : String) :
    Job :=
  { id := id, kind := kind, client_name := client_name,
    input_data := input_data, status := .pending, results := none }

/-- Modelled from the spec (section 4.1, transitions): a pending job moves
to processing on adapter acceptance; a processing job moves to completed
with its structured result on adapter success, or to failed on adapter
failure, storing a best-effort diagnostic in results if available and
leaving results absent otherwise. -/
inductive JobStep : Job → Job → Prop where
  | accept (j : Job) : j.status = .pending →
      JobStep j { j with status := .processing }
  | success (j : Job) (r : String) : j.status = .processing →
      JobStep j { j with status := .completed, results := some r }
  | failure (j : Job) (diag : Option String) : j.status = .processing →
      JobStep j { j with status := .failed, results := diag }

/-- Modelled from the spec (section 3 lifecycle): the jobs reachable from
creation by Job Lifecycle Manager transitions. -/
inductive ReachableJob : Job → Prop where
  | create (id : Nat) (kind : JobKind) (client_name input_data : String) :
      ReachableJob (createJob id kind client_name input_data)
  | step {j j₂ : Job} : ReachableJob j → JobStep j j₂ → ReachableJob j₂

/-- State-level reading of the condition failed-with-partial-output of spec
section 3: the job failed and a diagnostic payload was stored. -/
def failedWithOutput (j : Job) : Prop :=
  j.status = .failed ∧ j.results.isSome

end Freely

namespace Freely

/-! ## Cross-Generation Linker (spec section 4.3; backend not in snapshot) -/

/-- Errors raised by the Cross-Generation Linker (spec section 7 taxonomy). -/
inductive LinkError where
  | NotFoundError
  | PreconditionError
deriving Repr, DecidableEq

/-- Looks a job up by id in the job store of the owner. -/
def findJob (store : List Job) (jobId : Nat) : Option Job :=
  store.find? (fun j => j.id == jobId)

/-- An id strictly larger than every id in the store, so fresh. -/
def freshId (store : List Job) : Nat :=
  (store.map Job.id).foldr max 0 + 1

/-- Modelled from the spec (section 4.3): generate_proposal_from_analysis
and generate_risk_report_from_proposal both require the source job to be
completed and to have non-empty input_data, failing with PreconditionError
otherwise; on success a brand-new job of the target kind is created with a
fresh id and pending status, reusing the input_data of the source job, and the
source job is untouched. -/
def generateFromSource (store : List Job) (sourceId : Nat)
    (targetKind : JobKind) : Except LinkError (Job × List Job) :=
  match findJob store sourceId with
  | none => .error .NotFoundError
  | some src =>
    if src.status = .completed ∧ src.input_data ≠ "" then
      let newJob := createJob (freshId store) targetKind src.client_name
        src.input_data
      .ok (newJob, store ++ [newJob])
    else
      .error .PreconditionError

end Freely

/-- Sample completed risk-analysis job used in concrete witnesses. -/
def sampleCompletedJob : Freely.Job :=
  { id := 2, kind := .risk_analysis, client_name := "acme",
    input_data := "chat text", status := .completed,
    results := some "report" }

namespace Freely

/-! ## ProposalReportPage undo and redo (frontend source,
ProposalReportPage.jsx) -/

/-- Disabled condition of the undo button
(ProposalReportPage.jsx, undoRedoLoading, proposalHistory.length,
currentVersionIndex): disabled when a restore is in flight, the history is
empty, or the current version index is at most 0.  The index is an integer
because the component initialises currentVersionIndex to -1. -/
def undoDisabled (undoRedoLoading : Bool) (historyLength : Nat)
    (currentVersionIndex : Int) : Bool :=
  undoRedoLoading || historyLength == 0 || decide (currentVersionIndex ≤ 0)

/-- Disabled condition of the redo button (ProposalReportPage.jsx):
disabled when a restore is in flight, the history is empty, or the current
version index is at least length - 1. -/
def redoDisabled (undoRedoLoading : Bool) (historyLength : Nat)
    (currentVersionIndex : Int) : Bool :=
  undoRedoLoading || historyLength == 0 ||
    decide (currentVersionIndex ≥ (historyLength : Int) - 1)

/-- Restore target chosen by handleUndo (ProposalReportPage.jsx): the guard
returns without any restore call when the index is at most 0 or the history
is empty; otherwise restoreProposalVersion is called on index - 1. -/
def handleUndoTarget (historyLength : Nat) (currentVersionIndex : Int) :
    Option Int :=
  if currentVersionIndex ≤ 0 ∨ historyLength = 0 then none
  else some (currentVersionIndex - 1)

/-- Restore target chosen by handleRedo (ProposalReportPage.jsx): the guard
returns without any restore call when the index is at least length - 1 or
the history is empty; otherwise restoreProposalVersion is called on
index + 1. -/
def handleRedoTarget (historyLength : Nat) (currentVersionIndex : Int) :
    Option Int :=
  if currentVersionIndex ≥ (historyLength : Int) - 1 ∨ historyLength = 0 then
    none
  else some (currentVersionIndex + 1)

/-! ## Auto-refresh polling effect (frontend source,
ProposalReportPage.jsx and RiskAnalysisReportPage.jsx; the two effects are
textually identical) -/

/-- Guard of the auto-refresh effect: the effect installs an interval only
when a job is loaded and its status is pending or processing. -/
def shouldAutoRefresh (job : Option JobStatus) : Bool :=
  match job with
  | none => false
  | some status => status == .pending || status == .processing

/-- Interval installed by one run of the auto-refresh effect: the period in
milliseconds when the guard holds (setInterval(loadProposal, 3000)), none
when the effect returns early. -/
def refreshIntervalMs (job : Option JobStatus) : Option Nat :=
  if shouldAutoRefresh job then some 3000 else none

/-- One re-render step of the effect: React clears the previous interval
(the cleanup returned by the effect) and the new effect run installs the
interval dictated by the freshly loaded job state. -/
def effectStep (_installed : Option Nat) (job : Option JobStatus) :
    Option Nat :=
  refreshIntervalMs job

/-- Interval installed after a sequence of re-renders, starting with no
interval. -/
def installedAfter (jobStates : List (Option JobStatus)) : Option Nat :=
  jobStates.foldl effectStep none

end Freely

namespace Freely

/-! ## File selection validation (frontend source: handleFileChange and
handleProposalFileChange in DashboardPage.jsx, and the chatboxFile onChange
handler in ProposalReportPage.jsx; the three handlers carry the same, 
textually identical check) -/

/-- A file as the browser hands it to the change handler: its MIME type and
its name. -/
structure WebFile where
  mimeType : String
  name : String
deriving Repr, DecidableEq

/-- Lowercases a string character by character (the toLowerCase call of
the handlers). -/
def toLowerString (s : String) : String :=
  ⟨s.data.map Char.toLower⟩

/-- Whether a string ends with the given suffix (the endsWith call of the
handlers). -/
def endsWithString (s suffix : String) : Bool :=
  suffix.data.isSuffixOf s.data

/-- PDF check of the upload handlers: the MIME type is application/pdf or
the lowercased name ends in .pdf. -/
def isPdfFile (f : WebFile) : Bool :=
  f.mimeType == "application/pdf" ||
    endsWithString (toLowerString f.name) ".pdf"

/-- Component state touched by the upload handlers: the error message, the
file attached to the form, and the value of the file input element. -/
structure UploadFormState where
  errorMessage : String
  chatFile : Option WebFile
  inputValue : String
deriving Repr, DecidableEq

/-- Error message set when a PDF is chosen. -/
def pdfErrorMessage : String :=
  "PDF files are not supported. Please upload a text document."

/-- The shared upload change handler: with no file chosen nothing happens;
a PDF sets the error, clears the file input and returns before attaching;
any other file is attached to the form and the error is cleared. -/
def handleFileChange (s : UploadFormState) (chosen : Option WebFile) :
    UploadFormState :=
  match chosen with
  | none => s
  | some f =>
    if isPdfFile f then
      { s with errorMessage := pdfErrorMessage, inputValue := "" }
    else
      { s with chatFile := some f, errorMessage := "" }

/-! ## New-analysis form submission (frontend source: handleSubmit in
DashboardPage.jsx) -/

/-- Outcome of handleSubmit: nothing (analysis type not selected), a
validation message shown without any request, or the createRiskAnalysis
call with the fields appended to the FormData. -/
inductive SubmitOutcome where
  | noop
  | validationError (message : String)
  | createCall (analysis_type client_name : String) (chat_file : WebFile)
deriving Repr, DecidableEq

/-- Strips whitespace from both ends of a string (the trim call of
handleSubmit). -/
def trimString (s : String) : String :=
  ⟨((s.data.dropWhile Char.isWhitespace).reverse.dropWhile
      Char.isWhitespace).reverse⟩

/-- The handleSubmit logic of DashboardPage.jsx: under the
client_chat_import branch, an empty trimmed client name or a missing chat
file yields an error message and returns before the API call; otherwise
createRiskAnalysis is invoked with the analysis type, the trimmed client
name and the file. -/
def handleSubmit (selectedAnalysisType : String) (clientName : String)
    (chatFile : Option WebFile) : SubmitOutcome :=
  if selectedAnalysisType = "client_chat_import" then
    if trimString clientName = "" then
      .validationError "Please enter a client/project name"
    else
      match chatFile with
      | none => .validationError "Please select a chat file to import"
      | some f => .createCall "client_chat_import" (trimString clientName) f
  else
    .noop

/-! ## Risk meter (frontend source: renderRiskMeter in
RiskAnalysisReportPage.jsx) -/

/-- Score shown by the risk meter: results.risk_score (defaulting to 0 when
absent or falsy) converted from the 0-10 scale to 0-100. -/
def displayedRiskScore (risk_score : Option Nat) : Nat :=
  risk_score.getD 0 * 10

/-- Meter color chosen by getMeterColor: green up to 30, yellow up to 60,
red above. -/
def getMeterColor (score : Nat) : String :=
  if score ≤ 30 then "#10b981"
  else if score ≤ 60 then "#f59e0b"
  else "#ef4444"

end Freely

namespace Freely

/-! ## apiRequest (frontend source: apiRequest and getIdToken in
api/client.js) -/

/-- A fetch response as apiRequest inspects it: ok, status, statusText and
the detail field of the parsed error body (empty string when the field is
absent or the body is not JSON, matching the JS falsiness test). -/
structure HttpResponse where
  ok : Bool
  status : Nat
  statusText : String
  detail : String
deriving Repr, DecidableEq

/-- Environment of one apiRequest call: the token Firebase returns with
force refresh, the token it returns without, and the response to the nth
fetch issued. -/
structure ApiEnv where
  tokenFresh : Option String
  tokenCached : Option String
  respond : Nat → HttpResponse

/-- The getIdToken helper of api/client.js: yields the force-refreshed
token when forceRefresh is set and the cached one otherwise; none stands
for the null returned when no user is signed in or the lookup throws. -/
def getIdToken (env : ApiEnv) (forceRefresh : Bool) : Option String :=
  if forceRefresh then env.tokenFresh else env.tokenCached

/-- Observable outcome of apiRequest: a thrown Error with its message, the
null produced for a 204 response, or the parsed JSON body of the response
to the given fetch attempt. -/
inductive ApiResult where
  | thrown (message : String)
  | nullResult
  | jsonResult (attempt : Nat)
deriving Repr, DecidableEq

/-- Message of the Error thrown for a non-ok response:
errorBody.detail or response.statusText or the fixed fallback text. -/
def errorMessage (r : HttpResponse) : String :=
  if r.detail ≠ "" then r.detail
  else if r.statusText ≠ "" then r.statusText
  else "API request failed"

/-- Tail of apiRequest after the retry decision: a non-ok response throws
the mapped error message, a 204 yields null, anything else resolves to the
JSON body. -/
def finishResponse (attempt : Nat) (r : HttpResponse) : ApiResult :=
  if r.ok = false then .thrown (errorMessage r)
  else if r.status = 204 then .nullResult
  else .jsonResult attempt

/-- The apiRequest flow of api/client.js, with the recursion on retryCount
unrolled: the guard retryCount === 0 admits exactly one retry.  The first
attempt calls getIdToken(true) (retryCount === 0); a missing token throws
the authentication message before any fetch; a 401 on the first attempt
re-enters with retryCount = 1, so the retry calls getIdToken(false). -/
def apiRequest (env : ApiEnv) : ApiResult :=
  match getIdToken env true with
  | none => .thrown "Authentication required. Please sign in again."
  | some _ =>
    let r0 := env.respond 0
    if r0.ok = false ∧ r0.status = 401 then
      match getIdToken env false with
      | none => .thrown "Authentication required. Please sign in again."
      | some _ => finishResponse 1 (env.respond 1)
    else finishResponse 0 r0

/-- Bearer tokens of the fetches apiRequest issues, in order. -/
def fetchTokens (env : ApiEnv) : List String :=
  match getIdToken env true with
  | none => []
  | some t =>
    let r0 := env.respond 0
    if r0.ok = false ∧ r0.status = 401 then
      match getIdToken env false with
      | none => [t]
      | some t₂ => [t, t₂]
    else [t]

/-- Environment in which the force-refreshed and cached tokens differ and
the first fetch comes back 401. -/
def envStaleRetry : ApiEnv :=
  { tokenFresh := some "fresh-token",
    tokenCached := some "stale-token",
    respond := fun n =>
      if n = 0 then
        { ok := false, status := 401, statusText := "Unauthorized",
          detail := "" }
      else
        { ok := true, status := 200, statusText := "OK", detail := "" } }

/-- Environment whose only response is non-ok with an empty statusText and
no detail field. -/
def envBlankStatusText : ApiEnv :=
  { tokenFresh := some "fresh-token",
    tokenCached := some "fresh-token",
    respond := fun _ =>
      { ok := false, status := 500, statusText := "", detail := "" } }

end Freely

namespace Freely

theorem le_foldr_max_of_mem {l : List Nat} {x : Nat} (hx : x ∈ l) :
    x ≤ l.foldr max 0 := by
  induction l with
  | nil => cases hx
  | cons y ys ih =>
    rcases List.mem_cons.mp hx with h | h
    · simp [h, le_max_iff]
    · simp [le_max_iff, ih h]

theorem freshId_not_mem (store : List Job) (j : Job) (hj : j ∈ store) :
    j.id ≠ freshId store := by
  intro hcontra
  have hmem : j.id ∈ store.map Job.id := List.mem_map_of_mem _ hj
  have := le_foldr_max_of_mem hmem
  simp [freshId] at hcontra
  omega

end Freely

/-! ## Claim C1 -/

/-- C1: for a proposal job and any index i with 0 <= i < history length,
restore sets the live results content to the entry at i and moves the
current pointer to i without altering the stored sequence, so a history
call right after reports pointer i and an unchanged sequence length; an
index outside the range fails with OutOfRangeError. -/
theorem restore_in_range_sets_pointer_and_keeps_sequence
    (s : Freely.ProposalVersionState) (i : Int) :
    (0 ≤ i ∧ i < (s.entries.length : Int) →
      Freely.restore s i =
        .ok { liveContent := s.entries.getD i.toNat "",
              entries := s.entries,
              current := i.toNat } ∧
      ∀ s₂, Freely.restore s i = .ok s₂ →
        Freely.history s₂ = (s.entries, i.toNat) ∧
        (Freely.history s₂).1.length = s.entries.length)
    ∧ (¬ (0 ≤ i ∧ i < (s.entries.length : Int)) →
      Freely.restore s i = .error .OutOfRangeError) := by
  constructor
  · intro h
    constructor
    · simp [Freely.restore, h]
    · intro s₂ hs₂
      simp [Freely.restore, h] at hs₂
      simp [Freely.history, ← hs₂]
  · intro h
    simp [Freely.restore, h]

/-- Witness for C1: at the concrete two-entry history with pointer 1,
restoring to index 0 succeeds and reports pointer 0 with the sequence
unchanged, and restoring to index 2 is out of range. -/
theorem restore_in_range_sets_pointer_and_keeps_sequence_witness :
    (Freely.restore
        { liveContent := "B", entries := ["A", "B"], current := 1 } 0 =
      .ok { liveContent := "A", entries := ["A", "B"], current := 0 })
    ∧ (Freely.restore
        { liveContent := "B", entries := ["A", "B"], current := 1 } 2 =
      .error .OutOfRangeError) := by
  refine ⟨?_, ?_⟩
  · have h := (restore_in_range_sets_pointer_and_keeps_sequence
      { liveContent := "B", entries := ["A", "B"], current := 1 } 0).1
      (by decide)
    exact h.1
  · exact (restore_in_range_sets_pointer_and_keeps_sequence
      { liveContent := "B", entries := ["A", "B"], current := 1 } 2).2
      (by decide)

/-! ## Claim C2 -/

/-- C2: when the current pointer sits at index i with i < length - 1,
appending a new version first truncates all entries beyond i and then
appends, so the length becomes i + 2 (truncate to i + 1, then + 1); in
particular append Draft A, append Draft B, restore 0, append Draft C leaves
a history of length 2 with entries Draft A and Draft C. -/
theorem append_truncates_beyond_pointer
    (s : Freely.ProposalVersionState) (c : String)
    (h : s.current < s.entries.length) :
    (Freely.append s c).entries = s.entries.take (s.current + 1) ++ [c] ∧
    (Freely.append s c).entries.length = s.current + 2 ∧
    (Freely.append s c).current = s.current + 1 ∧
    ((Freely.restore
        (Freely.append (Freely.append Freely.emptyVersionState "Draft A")
          "Draft B") 0).map
      (fun s₂ => (Freely.append s₂ "Draft C").entries)
      = .ok ["Draft A", "Draft C"]) := by
  have hlen : (s.entries.take (s.current + 1)).length = s.current + 1 := by
    simp [List.length_take]
    omega
  refine ⟨rfl, ?_, ?_, rfl⟩
  · simp [Freely.append, hlen]
  · simp [Freely.append, hlen]

/-- Witness for C2: at the concrete history with entries A, B and pointer 0,
appending C truncates B and yields the two-entry history A, C with the
pointer at the new tail. -/
theorem append_truncates_beyond_pointer_witness :
    (Freely.append
        { liveContent := "A", entries := ["A", "B"], current := 0 } "C").entries
      = ["A"].take 1 ++ ["C"] ∧
    (Freely.append
        { liveContent := "A", entries := ["A", "B"], current := 0 } "C").entries.length = 2 ∧
    (Freely.append
        { liveContent := "A", entries := ["A", "B"], current := 0 } "C").current = 1 ∧
    ((Freely.restore
        (Freely.append (Freely.append Freely.emptyVersionState "Draft A")
          "Draft B") 0).map
      (fun s₂ => (Freely.append s₂ "Draft C").entries)
      = .ok ["Draft A", "Draft C"]) := by
  have h := append_truncates_beyond_pointer
    { liveContent := "A", entries := ["A", "B"], current := 0 } "C"
    (by decide)
  exact ⟨by decide, h.2.1, h.2.2.1, h.2.2.2⟩

/-! ## Claim C4 -/

/-- C4: for every reachable job, results is absent whenever the status is
pending or processing, present whenever the status is completed, and
present exactly when the job is completed or failed-with-partial-output. -/
theorem results_present_iff_terminal_with_output
    (j : Freely.Job) (hr : Freely.ReachableJob j) :
    ((j.status = .pending ∨ j.status = .processing) → j.results = none) ∧
    (j.status = .completed → j.results.isSome) ∧
    (j.results.isSome ↔
      (j.status = .completed ∨ Freely.failedWithOutput j)) := by
  have core :
      ((j.status = .pending ∨ j.status = .processing) → j.results = none) ∧
      (j.status = .completed → j.results.isSome) := by
    induction hr with
    | create id kind client_name input_data =>
      simp [Freely.createJob]
    | step hreach hstep ih =>
      cases hstep with
      | accept h =>
        refine ⟨fun _ => ih.1 (Or.inl h), fun hc => by simp at hc⟩
      | success r h =>
        refine ⟨fun hc => ?_, fun _ => rfl⟩
        rcases hc with hc | hc <;> simp at hc
      | failure diag h =>
        refine ⟨fun hc => ?_, fun hc => by simp at hc⟩
        rcases hc with hc | hc <;> simp at hc
  refine ⟨core.1, core.2, ?_, ?_⟩
  · intro hsome
    rcases hstat : j.status with h | h | h | h
    · have hnone := core.1 (Or.inl hstat)
      simp [hnone] at hsome
    · have hnone := core.1 (Or.inr hstat)
      simp [hnone] at hsome
    · exact Or.inl rfl
    · exact Or.inr ⟨hstat, hsome⟩
  · rintro (hc | ⟨_, hsome⟩)
    · exact core.2 hc
    · exact hsome

/-- Witness for C4: the invariant holds of the concrete reachable job
obtained by creating an analysis and letting the adapter accept and then
succeed. -/
theorem results_present_iff_terminal_with_output_witness :
    (((Freely.JobStatus.completed = .pending ∨
        Freely.JobStatus.completed = .processing) →
      (some "report" : Option String) = none) ∧
     (Freely.JobStatus.completed = .completed →
      (some "report" : Option String).isSome) ∧
     ((some "report" : Option String).isSome ↔
      (Freely.JobStatus.completed = .completed ∨
        Freely.failedWithOutput
          { id := 1, kind := .risk_analysis, client_name := "acme",
            input_data := "chat", status := .completed,
            results := some "report" }))) := by
  have hreach : Freely.ReachableJob
      { id := 1, kind := .risk_analysis, client_name := "acme",
        input_data := "chat", status := .completed,
        results := some "report" } := by
    have h0 := Freely.ReachableJob.create 1 .risk_analysis "acme" "chat"
    have h1 := Freely.ReachableJob.step h0
      (Freely.JobStep.accept _ (by simp [Freely.createJob]))
    exact Freely.ReachableJob.step h1
      (Freely.JobStep.success _ "report" (by simp [Freely.createJob]))
  exact results_present_iff_terminal_with_output _ hreach

/-! ## Claim C5 -/

/-- C5: cross-generation requires the source job to be completed with
non-empty input_data, failing with PreconditionError otherwise (in
particular on a pending source); on success it returns a brand-new job
whose id differs from every stored id, with pending status and input_data
equal to that of the source job, and the source job and the rest of the store are
left unchanged (the store is only extended at the tail). -/
theorem generateFromSource_precondition_and_fork
    (store : List Freely.Job) (sourceId : Nat) (targetKind : Freely.JobKind)
    (src : Freely.Job) (hfind : Freely.findJob store sourceId = some src) :
    (¬ (src.status = .completed ∧ src.input_data ≠ "") →
      Freely.generateFromSource store sourceId targetKind =
        .error .PreconditionError) ∧
    (src.status = .pending →
      Freely.generateFromSource store sourceId targetKind =
        .error .PreconditionError) ∧
    (src.status = .completed → src.input_data ≠ "" →
      ∃ newJob,
        Freely.generateFromSource store sourceId targetKind =
          .ok (newJob, store ++ [newJob]) ∧
        newJob.status = .pending ∧
        newJob.kind = targetKind ∧
        newJob.input_data = src.input_data ∧
        (∀ j ∈ store, j.id ≠ newJob.id) ∧
        Freely.findJob (store ++ [newJob]) sourceId = some src) := by
  have hprec : ∀ hno : ¬ (src.status = .completed ∧ src.input_data ≠ ""),
      Freely.generateFromSource store sourceId targetKind =
        .error .PreconditionError := by
    intro hno
    simp [Freely.generateFromSource, hfind, hno]
  refine ⟨hprec, ?_, ?_⟩
  · intro hpending
    apply hprec
    rintro ⟨hc, -⟩
    rw [hpending] at hc
    cases hc
  · intro hcomp hinput
    refine ⟨Freely.createJob (Freely.freshId store) targetKind
      src.client_name src.input_data, ?_, rfl, rfl, rfl, ?_, ?_⟩
    · simp [Freely.generateFromSource, hfind, hcomp, hinput]
    · intro j hj
      exact Freely.freshId_not_mem store j hj
    · unfold Freely.findJob at hfind ⊢
      rw [List.find?_append, hfind]
      rfl

/-- Witness for C5: in a concrete store, generating from the pending job 1
fails with PreconditionError, and generating from the completed job 2 with
non-empty input yields a fresh pending proposal job reusing its input
while leaving the store contents in place. -/
theorem generateFromSource_precondition_and_fork_witness :
    (Freely.generateFromSource
        [Freely.createJob 1 .risk_analysis "acme" "chat text"]
        1 .proposal = .error .PreconditionError) ∧
    (∃ newJob,
      Freely.generateFromSource [sampleCompletedJob] 2 .proposal =
        .ok (newJob, [sampleCompletedJob] ++ [newJob]) ∧
      newJob.status = .pending ∧
      newJob.kind = .proposal ∧
      newJob.input_data = sampleCompletedJob.input_data ∧
      (∀ j ∈ [sampleCompletedJob], j.id ≠ newJob.id) ∧
      Freely.findJob ([sampleCompletedJob] ++ [newJob]) 2 =
        some sampleCompletedJob) := by
  constructor
  · exact (generateFromSource_precondition_and_fork
      [Freely.createJob 1 .risk_analysis "acme" "chat text"] 1 .proposal
      (Freely.createJob 1 .risk_analysis "acme" "chat text")
      (by decide)).2.1 rfl
  · exact (generateFromSource_precondition_and_fork
      [sampleCompletedJob] 2 .proposal sampleCompletedJob
      (by decide)).2.2 rfl (by decide)

/-! ## Claim C3 -/

/-- C3: for a loaded proposal with history length n and current pointer p
(with -1 <= p < n and no restore in flight), the undo control is enabled
iff p > 0 and triggering it restores to p - 1, the redo control is enabled
iff p < n - 1 and triggering it restores to p + 1, and when the guard fails
the handler performs no restore call. -/
theorem undo_redo_enablement_and_targets
    (n : Nat) (p : Int) (hlo : -1 ≤ p) (hhi : p < (n : Int)) :
    (Freely.undoDisabled false n p = false ↔ 0 < p) ∧
    (0 < p → Freely.handleUndoTarget n p = some (p - 1)) ∧
    (¬ 0 < p → Freely.handleUndoTarget n p = none) ∧
    (Freely.redoDisabled false n p = false ↔ p < (n : Int) - 1) ∧
    (p < (n : Int) - 1 → Freely.handleRedoTarget n p = some (p + 1)) ∧
    (¬ p < (n : Int) - 1 → Freely.handleRedoTarget n p = none) := by
  refine ⟨?_, ?_, ?_, ?_, ?_, ?_⟩
  · simp only [Freely.undoDisabled, Bool.false_or, Bool.or_eq_false_iff,
      beq_eq_false_iff_ne, decide_eq_false_iff_not, not_le, ne_eq]
    omega
  · intro h
    rw [Freely.handleUndoTarget, if_neg (by omega)]
  · intro h
    rw [Freely.handleUndoTarget, if_pos (by omega)]
  · simp only [Freely.redoDisabled, Bool.false_or, Bool.or_eq_false_iff,
      beq_eq_false_iff_ne, decide_eq_false_iff_not, not_le, ne_eq]
    omega
  · intro h
    rw [Freely.handleRedoTarget, if_neg (by omega)]
  · intro h
    rw [Freely.handleRedoTarget, if_pos (by omega)]

/-- Witness for C3: at history length 3 and pointer 1, undo is enabled and
restores to 0, redo is enabled and restores to 2. -/
theorem undo_redo_enablement_and_targets_witness :
    (Freely.undoDisabled false 3 1 = false ↔ (0 : Int) < 1) ∧
    ((0 : Int) < 1 → Freely.handleUndoTarget 3 1 = some 0) ∧
    (¬ (0 : Int) < 1 → Freely.handleUndoTarget 3 1 = none) ∧
    (Freely.redoDisabled false 3 1 = false ↔ (1 : Int) < (3 : Int) - 1) ∧
    ((1 : Int) < (3 : Int) - 1 → Freely.handleRedoTarget 3 1 = some 2) ∧
    (¬ (1 : Int) < (3 : Int) - 1 → Freely.handleRedoTarget 3 1 = none) := by
  exact undo_redo_enablement_and_targets 3 1 (by decide) (by decide)

/-! ## Claim C6 -/

/-- C6: the auto-refresh effect installs a 3000 ms re-poll interval exactly
when the status of the loaded job is pending or processing; after any sequence
of re-renders ending in a state whose status is not pending and not
processing, no interval remains installed (the running interval is
cleared). -/
theorem polling_active_iff_pending_or_processing
    (js : List (Option Freely.JobStatus)) (j : Option Freely.JobStatus) :
    (Freely.refreshIntervalMs j = some 3000 ↔
      (j = some .pending ∨ j = some .processing)) ∧
    Freely.installedAfter (js ++ [j]) = Freely.refreshIntervalMs j ∧
    (Freely.shouldAutoRefresh j = false →
      Freely.installedAfter (js ++ [j]) = none) := by
  have hlast : Freely.installedAfter (js ++ [j]) =
      Freely.refreshIntervalMs j := by
    simp [Freely.installedAfter, List.foldl_append, Freely.effectStep]
  refine ⟨?_, hlast, ?_⟩
  · rw [Freely.refreshIntervalMs]
    rcases j with _ | status
    · simp [Freely.shouldAutoRefresh]
    · cases status <;> simp [Freely.shouldAutoRefresh]
  · intro h
    rw [hlast, Freely.refreshIntervalMs, h]
    rfl

/-- Witness for C6: after re-renders pending, processing, completed the
interval is gone, and in the processing state the 3000 ms interval is
installed. -/
theorem polling_active_iff_pending_or_processing_witness :
    (Freely.refreshIntervalMs (some .completed) = some 3000 ↔
      ((some Freely.JobStatus.completed = some .pending) ∨
        (some Freely.JobStatus.completed = some .processing))) ∧
    Freely.installedAfter
        ([some .pending, some .processing] ++ [some .completed]) =
      Freely.refreshIntervalMs (some .completed) ∧
    (Freely.shouldAutoRefresh (some .completed) = false →
      Freely.installedAfter
          ([some .pending, some .processing] ++ [some .completed]) = none) := by
  exact polling_active_iff_pending_or_processing
    [some .pending, some .processing] (some .completed)

/-! ## Claim C7 -/

/-- C7: a chosen file whose MIME type is application/pdf or whose
lowercased name ends in .pdf is rejected before reaching the core: the
error message is shown, the file input is cleared, and the file is not
attached to the form; any other chosen file is attached and the error is
cleared. -/
theorem pdf_files_rejected_before_core
    (s : Freely.UploadFormState) (f : Freely.WebFile) :
    (Freely.isPdfFile f = true ↔
      (f.mimeType = "application/pdf" ∨
        Freely.endsWithString (Freely.toLowerString f.name) ".pdf"
          = true)) ∧
    (Freely.isPdfFile f = true →
      (Freely.handleFileChange s (some f)).errorMessage =
        Freely.pdfErrorMessage ∧
      (Freely.handleFileChange s (some f)).inputValue = "" ∧
      (Freely.handleFileChange s (some f)).chatFile = s.chatFile) ∧
    (Freely.isPdfFile f = false →
      (Freely.handleFileChange s (some f)).chatFile = some f ∧
      (Freely.handleFileChange s (some f)).errorMessage = "") := by
  refine ⟨?_, ?_, ?_⟩
  · simp [Freely.isPdfFile]
  · intro h
    simp [Freely.handleFileChange, h]
  · intro h
    simp [Freely.handleFileChange, h]

/-- Witness for C7: the file report.PDF with a generic MIME type is
rejected (error shown, input cleared, nothing attached), and notes.txt is
attached with the error cleared. -/
theorem pdf_files_rejected_before_core_witness :
    ((Freely.handleFileChange
        { errorMessage := "", chatFile := none, inputValue := "report.PDF" }
        (some { mimeType := "application/octet-stream",
                name := "report.PDF" })).errorMessage =
      Freely.pdfErrorMessage ∧
     (Freely.handleFileChange
        { errorMessage := "", chatFile := none, inputValue := "report.PDF" }
        (some { mimeType := "application/octet-stream",
                name := "report.PDF" })).inputValue = "" ∧
     (Freely.handleFileChange
        { errorMessage := "", chatFile := none, inputValue := "report.PDF" }
        (some { mimeType := "application/octet-stream",
                name := "report.PDF" })).chatFile = none) ∧
    ((Freely.handleFileChange
        { errorMessage := Freely.pdfErrorMessage, chatFile := none,
          inputValue := "notes.txt" }
        (some { mimeType := "text/plain", name := "notes.txt" })).chatFile =
      some { mimeType := "text/plain", name := "notes.txt" } ∧
     (Freely.handleFileChange
        { errorMessage := Freely.pdfErrorMessage, chatFile := none,
          inputValue := "notes.txt" }
        (some { mimeType := "text/plain", name := "notes.txt" })).errorMessage
      = "") := by
  constructor
  · exact (pdf_files_rejected_before_core
      { errorMessage := "", chatFile := none, inputValue := "report.PDF" }
      { mimeType := "application/octet-stream", name := "report.PDF" }).2.1
      (by decide)
  · exact (pdf_files_rejected_before_core
      { errorMessage := Freely.pdfErrorMessage, chatFile := none,
        inputValue := "notes.txt" }
      { mimeType := "text/plain", name := "notes.txt" }).2.2
      (by decide)

/-! ## Claim C8 -/

/-- C8: creating a risk analysis validates the required fields
synchronously: an empty trimmed client name or a missing chat file
displays a validation message and the create-job API call is not issued;
only when both are present is createRiskAnalysis invoked, with the trimmed
client name, the analysis type and the file. -/
theorem create_analysis_validates_before_request
    (clientName : String) (chatFile : Option Freely.WebFile) :
    (Freely.trimString clientName = "" →
      Freely.handleSubmit "client_chat_import" clientName chatFile =
        .validationError "Please enter a client/project name") ∧
    (Freely.trimString clientName ≠ "" → chatFile = none →
      Freely.handleSubmit "client_chat_import" clientName chatFile =
        .validationError "Please select a chat file to import") ∧
    ((Freely.trimString clientName = "" ∨ chatFile = none) →
      ∀ a c f, Freely.handleSubmit "client_chat_import" clientName chatFile ≠
        .createCall a c f) ∧
    (∀ f, Freely.trimString clientName ≠ "" → chatFile = some f →
      Freely.handleSubmit "client_chat_import" clientName chatFile =
        .createCall "client_chat_import" (Freely.trimString clientName) f) := by
  refine ⟨?_, ?_, ?_, ?_⟩
  · intro h
    simp [Freely.handleSubmit, h]
  · intro h hf
    simp [Freely.handleSubmit, h, hf]
  · rintro (h | h) a c f
    · simp [Freely.handleSubmit, h]
    · subst h
      by_cases hname : Freely.trimString clientName = "" <;>
        simp [Freely.handleSubmit, hname]
  · intro f h hf
    simp [Freely.handleSubmit, h, hf]

/-- Witness for C8: an all-whitespace client name is rejected with the
name message, a missing file is rejected with the file message, and the
pair Acme Corp with chat.txt produces the createRiskAnalysis call on the
trimmed name. -/
theorem create_analysis_validates_before_request_witness :
    (Freely.handleSubmit "client_chat_import" "   "
        (some { mimeType := "text/plain", name := "chat.txt" }) =
      .validationError "Please enter a client/project name") ∧
    (Freely.handleSubmit "client_chat_import" " Acme Corp " none =
      .validationError "Please select a chat file to import") ∧
    (Freely.handleSubmit "client_chat_import" " Acme Corp "
        (some { mimeType := "text/plain", name := "chat.txt" }) =
      .createCall "client_chat_import" (Freely.trimString " Acme Corp ")
        { mimeType := "text/plain", name := "chat.txt" }) := by
  refine ⟨?_, ?_, ?_⟩
  · exact (create_analysis_validates_before_request "   "
      (some { mimeType := "text/plain", name := "chat.txt" })).1 (by decide)
  · exact (create_analysis_validates_before_request " Acme Corp " none).2.1
      (by decide) rfl
  · exact (create_analysis_validates_before_request " Acme Corp "
      (some { mimeType := "text/plain", name := "chat.txt" })).2.2.2
      { mimeType := "text/plain", name := "chat.txt" } (by decide) rfl

/-! ## Claim C10 -/

/-- C10: for a completed risk analysis the displayed risk score is
results.risk_score times 10 (0 when risk_score is absent), and the meter
color is green exactly when the scaled score is at most 30, yellow exactly
when it lies in (30, 60], and red otherwise. -/
theorem risk_meter_scale_and_colors (risk_score : Option Nat) :
    Freely.displayedRiskScore risk_score = risk_score.getD 0 * 10 ∧
    Freely.displayedRiskScore none = 0 ∧
    ∀ d : Nat,
      (Freely.getMeterColor d = "#10b981" ↔ d ≤ 30) ∧
      (Freely.getMeterColor d = "#f59e0b" ↔ (30 < d ∧ d ≤ 60)) ∧
      (Freely.getMeterColor d = "#ef4444" ↔ 60 < d) := by
  refine ⟨rfl, rfl, ?_⟩
  intro d
  unfold Freely.getMeterColor
  split_ifs with h1 h2
  · refine ⟨by simp [h1], ?_, ?_⟩
    · constructor
      · intro h
        exact absurd h (by decide)
      · intro h
        omega
    · constructor
      · intro h
        exact absurd h (by decide)
      · intro h
        omega
  · refine ⟨?_, by simp; omega, ?_⟩
    · constructor
      · intro h
        exact absurd h (by decide)
      · intro h
        omega
    · constructor
      · intro h
        exact absurd h (by decide)
      · intro h
        omega
  · refine ⟨?_, ?_, by simp; omega⟩
    · constructor
      · intro h
        exact absurd h (by decide)
      · intro h
        omega
    · constructor
      · intro h
        exact absurd h (by decide)
      · intro h
        omega

/-! ## Claim C9 -/

/-- C9 counterexample: the claim as stated fails on the code in two
places.  First, after a 401 on the first attempt the retry does not carry
a force-refreshed token: apiRequest retries with retryCount = 1, so
getIdToken(retryCount === 0) is called with false and the second fetch
carries the cached token, which here differs from the force-refreshed one.
Second, a non-ok response with no detail field and an empty statusText is
mapped to the fixed message API request failed, not to the statusText. -/
theorem apiRequest_claimed_retry_refresh_false :
    (Freely.fetchTokens Freely.envStaleRetry =
        ["fresh-token", "stale-token"] ∧
      Freely.getIdToken Freely.envStaleRetry true = some "fresh-token" ∧
      ("stale-token" : String) ≠ "fresh-token") ∧
    (Freely.apiRequest Freely.envBlankStatusText =
        .thrown "API request failed" ∧
      (Freely.envBlankStatusText.respond 0).statusText = "" ∧
      ("API request failed" : String) ≠ "") := by
  refine ⟨⟨?_, rfl, by decide⟩, ⟨?_, rfl, by decide⟩⟩
  · rfl
  · rfl

/-- C9 amended: apiRequest throws the authentication message without any
fetch when no ID token can be obtained; the first attempt carries the
force-refreshed token; a 401 on the first attempt makes it retry exactly
once, obtaining the token again without force refresh; any other non-ok
response throws an Error whose message is the body detail field if
non-empty, else the statusText if non-empty, else API request failed; a
204 response yields null, and any other ok response resolves to the JSON
body. -/
theorem apiRequest_auth_retry_and_error_mapping (env : Freely.ApiEnv) :
    (env.tokenFresh = none →
      Freely.apiRequest env =
        .thrown "Authentication required. Please sign in again." ∧
      Freely.fetchTokens env = []) ∧
    (∀ t t₂, env.tokenFresh = some t → env.tokenCached = some t₂ →
      (env.respond 0).ok = false → (env.respond 0).status = 401 →
      Freely.fetchTokens env = [t, t₂] ∧
      Freely.apiRequest env = Freely.finishResponse 1 (env.respond 1)) ∧
    (∀ t, env.tokenFresh = some t →
      ¬ ((env.respond 0).ok = false ∧ (env.respond 0).status = 401) →
      Freely.fetchTokens env = [t] ∧
      Freely.apiRequest env = Freely.finishResponse 0 (env.respond 0)) ∧
    (∀ a r, r.ok = false →
      Freely.finishResponse a r =
        .thrown (if r.detail ≠ "" then r.detail
          else if r.statusText ≠ "" then r.statusText
          else "API request failed")) ∧
    (∀ a r, r.ok = true → r.status = 204 →
      Freely.finishResponse a r = .nullResult) ∧
    (∀ a r, r.ok = true → r.status ≠ 204 →
      Freely.finishResponse a r = .jsonResult a) := by
  refine ⟨?_, ?_, ?_, ?_, ?_, ?_⟩
  · intro h
    constructor <;> simp [Freely.apiRequest, Freely.fetchTokens,
      Freely.getIdToken, h]
  · intro t t₂ h1 h2 h3 h4
    constructor <;> simp [Freely.apiRequest, Freely.fetchTokens,
      Freely.getIdToken, h1, h2, h3, h4]
  · intro t h1 h2
    constructor <;> simp [Freely.apiRequest, Freely.fetchTokens,
      Freely.getIdToken, h1, h2]
  · intro a r h
    simp [Freely.finishResponse, Freely.errorMessage, h]
  · intro a r h1 h2
    simp [Freely.finishResponse, h1, h2]
  · intro a r h1 h2
    simp [Freely.finishResponse, h1, h2]

/-- Witness for the amended C9: in the stale-retry environment the two
fetches carry the fresh then the cached token and the call resolves to the
JSON body of the retried fetch. -/
theorem apiRequest_auth_retry_and_error_mapping_witness :
    Freely.fetchTokens Freely.envStaleRetry =
      ["fresh-token", "stale-token"] ∧
    Freely.apiRequest Freely.envStaleRetry =
      Freely.finishResponse 1 (Freely.envStaleRetry.respond 1) := by
  exact (apiRequest_auth_retry_and_error_mapping Freely.envStaleRetry).2.1
    "fresh-token" "stale-token" rfl rfl rfl rfl
